import Mathlib

/-!
Verification of the AMEDEO-Systems fault-tolerant kernel core against its
design specification.

The development shallowly embeds the C sources:
* `src/src/Voter_Interface.c` — 2-of-3 redundancy voter (`voter_compare`,
  `voter_get_consensed_result`); the `float` command fields are modelled as
  exact rationals `ℚ`, the static `last` consensus cell is threaded as an
  explicit state argument.
* `src/src/poae.c` — the perceive/observe/actuate/evolve cycle orchestrator;
  the `void*` context is a type parameter and each phase is an optional
  function returning its `int` code and the updated context.
* `src/kernel/arinc653_partition.c` — partition scheduler; the partition
  table is threaded explicitly and the returned `Option Nat` records which
  partition's entry point was invoked (replacing the side effect).
* `src/kernel/core/simplex_safety_monitor.c` — Simplex safety monitor; the
  global `g_simplex_ctx` is threaded explicitly, check/fallback function
  pointers become `Option (Nat → Int)`, and `simplex_run_monitors`
  additionally returns the list of monitor indices whose check function was
  invoked (replacing the call side effect), used to state non-invocation
  properties.
`printf` logging is dropped throughout; `uint64_t`/`uint32_t` values are
modelled as `Nat` (with explicit `% 2 ^ 64` where wrap-around subtraction
occurs), `int` return codes as `Int`.
-/

/-! ### Redundant voter (src/src/Voter_Interface.c, src/include/Voter_Interface.h) -/

/-- `CtrlOut` from `Voter_Interface.h`: two elevon command channels.
The C `float` fields are modelled as exact rationals. -/
structure CtrlOut where
  elevon_l : ℚ
  elevon_r : ℚ
deriving DecidableEq, Repr

/-- `vote_result_t` value `VOTE_EQUAL = 0`. -/
def VOTE_EQUAL : Int := 0

/-- `vote_result_t` value `VOTE_MISMATCH = 1`. -/
def VOTE_MISMATCH : Int := 1

/-- Static helper `eq` from `Voter_Interface.c`: two outputs are equal when
every field differs by at most `e` in absolute value. -/
def eq_out (a b : CtrlOut) (e : ℚ) : Bool :=
  decide (|a.elevon_l - b.elevon_l| ≤ e) && decide (|a.elevon_r - b.elevon_r| ≤ e)

/-- `voter_compare` from `Voter_Interface.c`. The static cell `last` is
threaded explicitly: the function receives its previous value and returns the
`int` vote result together with the new value of `last`. -/
def voter_compare (c f d : CtrlOut) (eps : ℚ) (last : CtrlOut) : Int × CtrlOut :=
  let cf := eq_out c f eps
  let cd := eq_out c d eps
  let fd := eq_out f d eps
  if (cf && cd) || (cf && fd) || (cd && fd) then
    let m := if cf then c else (if cd then c else f)
    (VOTE_EQUAL, m)
  else
    (VOTE_MISMATCH, last)

/-- `voter_get_consensed_result` from `Voter_Interface.c`: ignores the ATA
code and returns the retained `last` consensus value. -/
def voter_get_consensed_result (ata_code : Nat) (last : CtrlOut) : CtrlOut :=
  last

/-! ### Cycle orchestrator (src/src/poae.c, src/include/poae.h) -/

/-- `poae_run_cycle` from `poae.c`. Each phase pointer is an optional
function from timestamp and context to its `int` return code and the updated
context. The C body calls every non-null phase in order, discards each
phase's return value, and returns 0. -/
def poae_run_cycle {Ctx : Type} (t : Nat)
    (p o a e : Option (Nat → Ctx → Int × Ctx)) (c : Ctx) : Int × Ctx :=
  let c1 := match p with | some f => (f t c).2 | none => c
  let c2 := match o with | some f => (f t c1).2 | none => c1
  let c3 := match a with | some f => (f t c2).2 | none => c2
  let c4 := match e with | some f => (f t c3).2 | none => c3
  (0, c4)

/-- Instrumented phase used to observe `poae_run_cycle`: records its tag `k`
in the context trace and returns the code `ret`. -/
def poaeTrace (k : Nat) (ret : Int) : Nat → List Nat → Int × List Nat :=
  fun _ l => (ret, l ++ [k])

/-! ### Partition scheduler (src/kernel/arinc653_partition.c) -/

/-- Macro `MAX_PARTITIONS` (4). -/
def MAX_PARTITIONS : Nat := 4

/-- Macro `PARTITION_DURATION_US` (250 000 µs per partition). -/
def PARTITION_DURATION_US : Nat := 250000

/-- Macro `MAJOR_FRAME_US` (1 000 000 µs major frame). -/
def MAJOR_FRAME_US : Nat := 1000000

/-- `arinc653_partition_t`: the entry-point function pointer is modelled as
an optional stored `int` return code (the demo entry points only print and
return a constant); whether it was invoked is reported separately by
`arinc653_schedule`. -/
structure Arinc653Partition where
  id : Nat
  duration_us : Nat
  last_exec_us : Nat
  entry_point : Option Int
deriving DecidableEq, Repr

/-- The scheduler's file-static state: the partition table and
`num_partitions`. -/
structure Arinc653State where
  partitions : List Arinc653Partition
  num_partitions : Nat
deriving DecidableEq, Repr

/-- Generic in-place update of the element at index `i`, mirroring a C array
element assignment; leaves the list unchanged when `i` is out of range. -/
def updateAt {α : Type} : Nat → (α → α) → List α → List α
  | _, _, [] => []
  | 0, f, x :: xs => f x :: xs
  | n + 1, f, x :: xs => x :: updateAt n f xs

/-- `arinc653_init`: the state after initialization — four partitions of
250 000 µs each, `last_exec_us = 0`, demo entry points returning 0. -/
def arinc653_init : Arinc653State :=
  { partitions :=
      [ ⟨0, PARTITION_DURATION_US, 0, some 0⟩
      , ⟨1, PARTITION_DURATION_US, 0, some 0⟩
      , ⟨2, PARTITION_DURATION_US, 0, some 0⟩
      , ⟨3, PARTITION_DURATION_US, 0, some 0⟩ ]
    num_partitions := 4 }

/-- `arinc653_schedule` from `arinc653_partition.c`. Returns the `int`
result, the updated scheduler state, and `some i` when partition `i`'s entry
point was invoked (`none` when no entry point ran). The `.get? / none`
branch is the list-model counterpart of indexing the fixed 4-slot array; for
the initialized table `active < num_partitions = 4` always hits a slot. -/
def arinc653_schedule (current_time_us : Nat) (s : Arinc653State) :
    Int × Arinc653State × Option Nat :=
  let frame_time := current_time_us % MAJOR_FRAME_US
  let active_partition := frame_time / PARTITION_DURATION_US
  if s.num_partitions ≤ active_partition then
    (-1, s, none)
  else
    let expected_start := active_partition * PARTITION_DURATION_US
    let actual_offset := frame_time - expected_start
    let demo_jitter := actual_offset % 50
    if 50 < demo_jitter then
      (-2, s, none)
    else
      match s.partitions.get? active_partition with
      | none => (0, s, none)
      | some p =>
        match p.entry_point with
        | some ret =>
          let table := updateAt active_partition
            (fun q => { q with last_exec_us := current_time_us }) s.partitions
          (ret, { s with partitions := table }, some active_partition)
        | none => (0, s, none)

/-! ### Simplex safety monitor (src/kernel/core/simplex_safety_monitor.c, .h) -/

/-- `simplex_state_t`. -/
inductive SimplexState where
  | NORMAL
  | DEGRADED
  | FALLBACK
  | FAILED
deriving DecidableEq, Repr

/-- `simplex_violation_t`. -/
inductive SimplexViolation where
  | NONE
  | TIMING
  | ENVELOPE
  | RESOURCE
  | MEMORY
  | COMMUNICATION
deriving DecidableEq, Repr

/-- Macro `SIMPLEX_MAX_MONITORS` (8 table slots). -/
def SIMPLEX_MAX_MONITORS : Nat := 8

/-- `simplex_monitor_t`: check and fallback function pointers become optional
functions from the timestamp to the `int` result (the `void *context`
argument of the hooks carries no data in this model). -/
structure SimplexMonitor where
  monitor_id : Nat
  enabled : Bool
  last_check_us : Nat
  violation_count : Nat
  last_violation : SimplexViolation
  name : String
  check_function : Option (Nat → Int)
  fallback_function : Option (Nat → Int)

/-- `simplex_context_t`: the global monitor context, threaded explicitly. -/
structure SimplexContext where
  current_state : SimplexState
  active_monitors : Nat
  last_state_change_us : Nat
  total_violations : Nat
  fallback_activations : Nat
  monitors : List SimplexMonitor

/-- The all-zero monitor slot produced by `memset` in `simplex_init`:
disabled, null function pointers, zero counters. -/
def simplexZeroMonitor : SimplexMonitor :=
  { monitor_id := 0, enabled := false, last_check_us := 0, violation_count := 0
    last_violation := SimplexViolation.NONE, name := "", check_function := none
    fallback_function := none }

/-- `simplex_init`: the context after initialization — zeroed table of
`SIMPLEX_MAX_MONITORS` slots, state `NORMAL`. -/
def simplex_init : SimplexContext :=
  { current_state := SimplexState.NORMAL, active_monitors := 0
    last_state_change_us := 0, total_violations := 0, fallback_activations := 0
    monitors := List.replicate SIMPLEX_MAX_MONITORS simplexZeroMonitor }

/-- The field assignments `simplex_register_monitor` performs on the slot:
`last_check_us` is the one field the C function does not write. -/
def simplexRegUpdate (monitor_id : Nat) (name : String)
    (check_fn fallback_fn : Option (Nat → Int)) (old : SimplexMonitor) :
    SimplexMonitor :=
  { old with
      monitor_id := monitor_id
      enabled := true
      name := name
      check_function := check_fn
      fallback_function := fallback_fn
      violation_count := 0
      last_violation := SimplexViolation.NONE }

/-- `simplex_register_monitor`: rejects only an out-of-capacity id; any
in-capacity id is written (overwriting whatever the slot held) and
`active_monitors` is incremented. -/
def simplex_register_monitor (monitor_id : Nat) (name : String)
    (check_fn fallback_fn : Option (Nat → Int)) (ctx : SimplexContext) :
    Int × SimplexContext :=
  if SIMPLEX_MAX_MONITORS ≤ monitor_id then
    (-1, ctx)
  else
    let table := updateAt monitor_id (simplexRegUpdate monitor_id name check_fn fallback_fn)
      ctx.monitors
    (0, { ctx with monitors := table, active_monitors := ctx.active_monitors + 1 })

/-- `simplex_enable_monitor`. -/
def simplex_enable_monitor (monitor_id : Nat) (ctx : SimplexContext) :
    Int × SimplexContext :=
  if SIMPLEX_MAX_MONITORS ≤ monitor_id then
    (-1, ctx)
  else
    (0, { ctx with monitors := updateAt monitor_id (fun m => { m with enabled := true }) ctx.monitors })

/-- `simplex_disable_monitor`. -/
def simplex_disable_monitor (monitor_id : Nat) (ctx : SimplexContext) :
    Int × SimplexContext :=
  if SIMPLEX_MAX_MONITORS ≤ monitor_id then
    (-1, ctx)
  else
    (0, { ctx with monitors := updateAt monitor_id (fun m => { m with enabled := false }) ctx.monitors })

/-- The state promotion at the end of `simplex_run_monitors`' violation
branch: only `NORMAL` is promoted, to `DEGRADED`. -/
def simplexPromote (t : Nat) (ctx : SimplexContext) : SimplexContext :=
  if ctx.current_state = SimplexState.NORMAL then
    { ctx with current_state := SimplexState.DEGRADED, last_state_change_us := t }
  else ctx

/-- The updates a violating monitor slot receives in `simplex_run_monitors`:
`last_check_us` stamped, `violation_count` incremented. -/
def simplexViolMon (t : Nat) (m : SimplexMonitor) : SimplexMonitor :=
  { m with last_check_us := t, violation_count := m.violation_count + 1 }

/-- The loop body of `simplex_run_monitors`, processing the monitor slots
from absolute index `i` on. Returns the `int` result (`-1` on fallback
failure, otherwise the number of violations detected in the processed
suffix), the updated slots, the updated context fields, and the list of
absolute indices whose check function was invoked. -/
def simplexRunFrom (t : Nat) :
    Nat → List SimplexMonitor → SimplexContext →
    Int × List SimplexMonitor × SimplexContext × List Nat
  | _, [], ctx => (0, [], ctx, [])
  | i, m :: rest, ctx =>
    match m.check_function, m.enabled with
    | some chk, true =>
      if chk t = 0 then
        let q := simplexRunFrom t (i + 1) rest ctx
        (q.1, { m with last_check_us := t } :: q.2.1, q.2.2.1, i :: q.2.2.2)
      else
        match m.fallback_function with
        | some fb =>
          if fb t = 0 then
            let ctx1 : SimplexContext :=
              { ctx with
                  total_violations := ctx.total_violations + 1
                  fallback_activations := ctx.fallback_activations + 1 }
            let q := simplexRunFrom t (i + 1) rest (simplexPromote t ctx1)
            (if q.1 < 0 then q.1 else q.1 + 1, simplexViolMon t m :: q.2.1, q.2.2.1, i :: q.2.2.2)
          else
            let ctx1 : SimplexContext :=
              { ctx with
                  total_violations := ctx.total_violations + 1
                  current_state := SimplexState.FAILED }
            (-1, simplexViolMon t m :: rest, ctx1, [i])
        | none =>
          let q := simplexRunFrom t (i + 1) rest
            (simplexPromote t { ctx with total_violations := ctx.total_violations + 1 })
          (if q.1 < 0 then q.1 else q.1 + 1, simplexViolMon t m :: q.2.1, q.2.2.1, i :: q.2.2.2)
    | some _, false =>
      let q := simplexRunFrom t (i + 1) rest ctx
      (q.1, m :: q.2.1, q.2.2.1, q.2.2.2)
    | none, _ =>
      let q := simplexRunFrom t (i + 1) rest ctx
      (q.1, m :: q.2.1, q.2.2.1, q.2.2.2)

/-- `simplex_run_monitors`: runs the loop body over the whole table and
reassembles the context. Result: the `int` return value, the updated
context, and the indices whose check function was invoked. -/
def simplex_run_monitors (t : Nat) (ctx : SimplexContext) :
    Int × SimplexContext × List Nat :=
  let q := simplexRunFrom t 0 ctx.monitors ctx
  (q.1, { q.2.2.1 with monitors := q.2.1 }, q.2.2.2)

/-- `simplex_force_fallback`: unconditionally sets `FALLBACK` and increments
the fallback counter (the violation type is only printed). -/
def simplex_force_fallback (violation_type : SimplexViolation) (ctx : SimplexContext) :
    Int × SimplexContext :=
  (0, { ctx with
          current_state := SimplexState.FALLBACK
          fallback_activations := ctx.fallback_activations + 1 })

/-- `simplex_emergency_shutdown`: unconditionally sets `FAILED`. -/
def simplex_emergency_shutdown (ctx : SimplexContext) : Int × SimplexContext :=
  (0, { ctx with current_state := SimplexState.FAILED })

/-- `simplex_is_safe_state`. -/
def simplex_is_safe_state (ctx : SimplexContext) : Bool :=
  ctx.current_state == SimplexState.NORMAL || ctx.current_state == SimplexState.DEGRADED

/-- `simplex_timing_monitor`: its `static uint64_t last_check` is threaded
explicitly (second argument / second component). The `uint64_t` subtraction
is taken modulo `2 ^ 64`. -/
def simplex_timing_monitor (timestamp_us : Nat) (last_check : Nat) : Int × Nat :=
  if last_check = 0 then
    (0, timestamp_us)
  else
    let delta := (timestamp_us + (2 ^ 64 - last_check % 2 ^ 64)) % 2 ^ 64
    if 1050 < delta ∨ delta < 950 then
      (-1, timestamp_us)
    else
      (0, timestamp_us)

/-- The safety-monitor operations considered by the latch properties, and
the context update each performs (return codes discarded). -/
inductive SimplexOp where
  | reg (monitor_id : Nat) (name : String) (check_fn fallback_fn : Option (Nat → Int))
  | enable (monitor_id : Nat)
  | disable (monitor_id : Nat)
  | run (t : Nat)
  | forceFallback (v : SimplexViolation)
  | emergencyShutdown

/-- Applies one safety-monitor operation to the context. -/
def simplexApply (ctx : SimplexContext) : SimplexOp → SimplexContext
  | SimplexOp.reg id name chk fb => (simplex_register_monitor id name chk fb ctx).2
  | SimplexOp.enable id => (simplex_enable_monitor id ctx).2
  | SimplexOp.disable id => (simplex_disable_monitor id ctx).2
  | SimplexOp.run t => (simplex_run_monitors t ctx).2.1
  | SimplexOp.forceFallback v => (simplex_force_fallback v ctx).2
  | SimplexOp.emergencyShutdown => (simplex_emergency_shutdown ctx).2

/-- Whether the operation is `simplex_force_fallback`. -/
def SimplexOp.isForce : SimplexOp → Bool
  | SimplexOp.forceFallback _ => true
  | _ => false

/-! ### Concrete hook functions and contexts used to instantiate theorems -/

/-- A check/fallback hook that always returns 0 (check passes / fallback
succeeds). -/
def hookOk : Nat → Int := fun _ => 0

/-- A check/fallback hook that always returns 1 (check violates / fallback
fails). -/
def hookBad : Nat → Int := fun _ => 1

/-- A healthy enabled monitor slot: check always passes. -/
def monOk : SimplexMonitor :=
  { simplexZeroMonitor with enabled := true, check_function := some hookOk }

/-- An enabled monitor whose check violates and whose fallback fails. -/
def monBad : SimplexMonitor :=
  { simplexZeroMonitor with
      enabled := true
      check_function := some hookBad
      fallback_function := some hookBad }

/-- An enabled monitor whose check violates and that has no fallback. -/
def monViolNoFb : SimplexMonitor :=
  { simplexZeroMonitor with enabled := true, check_function := some hookBad }

/-- A context in `NORMAL` whose table is: healthy monitor, then a monitor
with a failing fallback, then another healthy monitor. -/
def ctxAbortEx : SimplexContext :=
  { simplex_init with monitors := [monOk, monBad, monOk] }

/-- A context in `NORMAL` with a single violating monitor that has no
fallback. -/
def ctxViolEx : SimplexContext :=
  { simplex_init with monitors := [monViolNoFb] }

/-- A context whose state is `FAILED`. -/
def ctxFailedEx : SimplexContext :=
  { simplex_init with current_state := SimplexState.FAILED }

/-- A context whose state is `FALLBACK` (unsafe but not failed). -/
def ctxUnsafeEx : SimplexContext :=
  { simplex_init with current_state := SimplexState.FALLBACK }

/-- A sample operation sequence that never calls `simplex_force_fallback`. -/
def opsNoForceEx : List SimplexOp :=
  [ SimplexOp.run 5, SimplexOp.reg 1 "m" none none, SimplexOp.enable 1
  , SimplexOp.disable 1, SimplexOp.emergencyShutdown, SimplexOp.run 6 ]

/-- A sample operation sequence exercising every operation, including
`simplex_force_fallback`. -/
def opsAllEx : List SimplexOp :=
  [ SimplexOp.run 3, SimplexOp.forceFallback SimplexViolation.TIMING
  , SimplexOp.reg 0 "n" none none, SimplexOp.enable 0, SimplexOp.disable 0
  , SimplexOp.emergencyShutdown, SimplexOp.run 4 ]

/-! ### Helper lemmas about the monitor loop -/

theorem simplexPromote_state_of_ne {ctx : SimplexContext} (t : Nat)
    (h : ctx.current_state ≠ SimplexState.NORMAL) :
    (simplexPromote t ctx).current_state = ctx.current_state := by
  simp [simplexPromote, h]

theorem simplexPromote_violations (t : Nat) (ctx : SimplexContext) :
    (simplexPromote t ctx).total_violations = ctx.total_violations := by
  simp only [simplexPromote]
  split <;> rfl

/-- If the context entering the monitor loop is not in `NORMAL`, the loop
either leaves the state exactly as it was or forces `FAILED`. -/
theorem simplexRunFrom_state_stable (t : Nat) :
    ∀ (L : List SimplexMonitor) (i : Nat) (ctx : SimplexContext),
      ctx.current_state ≠ SimplexState.NORMAL →
      (simplexRunFrom t i L ctx).2.2.1.current_state = ctx.current_state ∨
      (simplexRunFrom t i L ctx).2.2.1.current_state = SimplexState.FAILED := by
  intro L
  induction L with
  | nil => intro i ctx h; exact Or.inl rfl
  | cons m rest ih =>
    intro i ctx h
    cases hcf : m.check_function with
    | none =>
      simp only [simplexRunFrom, hcf]
      exact ih (i + 1) ctx h
    | some chk =>
      cases hen : m.enabled with
      | false =>
        simp only [simplexRunFrom, hcf, hen]
        exact ih (i + 1) ctx h
      | true =>
        simp only [simplexRunFrom, hcf, hen]
        by_cases hv : chk t = 0
        · simp only [hv, if_true, if_pos]
          exact ih (i + 1) ctx h
        · simp only [hv, if_neg, if_false]
          cases hfb : m.fallback_function with
          | none =>
            have hps : (simplexPromote t
                { ctx with total_violations := ctx.total_violations + 1 }).current_state
                = ctx.current_state := simplexPromote_state_of_ne t h
            have := ih (i + 1)
              (simplexPromote t { ctx with total_violations := ctx.total_violations + 1 })
              (by rw [hps]; exact h)
            rw [hps] at this
            exact this
          | some fb =>
            by_cases hf : fb t = 0
            · simp only [hf, if_true, if_pos]
              have hps : (simplexPromote t
                  { ctx with
                      total_violations := ctx.total_violations + 1
                      fallback_activations := ctx.fallback_activations + 1 }).current_state
                  = ctx.current_state := simplexPromote_state_of_ne t h
              have := ih (i + 1)
                (simplexPromote t
                  { ctx with
                      total_violations := ctx.total_violations + 1
                      fallback_activations := ctx.fallback_activations + 1 })
                (by rw [hps]; exact h)
              rw [hps] at this
              exact this
            · simp only [hf, if_neg, if_false]
              exact Or.inr trivial

theorem simplexPromote_state (t : Nat) (ctx : SimplexContext) :
    (simplexPromote t ctx).current_state =
      if ctx.current_state = SimplexState.NORMAL then SimplexState.DEGRADED
      else ctx.current_state := by
  simp only [simplexPromote]
  split <;> simp_all

/-- When the loop completes without a fallback failure, its result counts the
violations: the final state is `DEGRADED` exactly when the incoming state was
`NORMAL` and some violation occurred (otherwise unchanged), and
`total_violations` grows by the returned count. -/
theorem simplexRunFrom_nonneg_spec (t : Nat) :
    ∀ (L : List SimplexMonitor) (i : Nat) (ctx : SimplexContext),
      0 ≤ (simplexRunFrom t i L ctx).1 →
      ((simplexRunFrom t i L ctx).2.2.1.current_state =
        if ctx.current_state = SimplexState.NORMAL ∧ 0 < (simplexRunFrom t i L ctx).1
        then SimplexState.DEGRADED else ctx.current_state) ∧
      (simplexRunFrom t i L ctx).2.2.1.total_violations =
        ctx.total_violations + (simplexRunFrom t i L ctx).1.toNat := by
  intro L
  induction L with
  | nil =>
    intro i ctx _
    simp [simplexRunFrom]
  | cons m rest ih =>
    intro i ctx hr
    cases hcf : m.check_function with
    | none =>
      simp only [simplexRunFrom, hcf] at hr ⊢
      exact ih (i + 1) ctx hr
    | some chk =>
      cases hen : m.enabled with
      | false =>
        simp only [simplexRunFrom, hcf, hen] at hr ⊢
        exact ih (i + 1) ctx hr
      | true =>
        simp only [simplexRunFrom, hcf, hen] at hr ⊢
        by_cases hv : chk t = 0
        · simp only [hv, if_true, if_pos] at hr ⊢
          exact ih (i + 1) ctx hr
        · simp only [hv, if_neg, if_false] at hr ⊢
          cases hfb : m.fallback_function with
          | none =>
            simp only [hfb] at hr ⊢
            by_cases hq : (simplexRunFrom t (i + 1) rest
                (simplexPromote t { ctx with total_violations := ctx.total_violations + 1 })).1 < 0
            · rw [if_pos hq] at hr
              omega
            · rw [if_neg hq] at hr ⊢
              have hq' : 0 ≤ (simplexRunFrom t (i + 1) rest
                  (simplexPromote t { ctx with total_violations := ctx.total_violations + 1 })).1 := by
                omega
              have hih := ih (i + 1)
                (simplexPromote t { ctx with total_violations := ctx.total_violations + 1 }) hq'
              have hvs : (simplexPromote t
                  { ctx with total_violations := ctx.total_violations + 1 }).total_violations
                  = ctx.total_violations + 1 := simplexPromote_violations t _
              have hss := simplexPromote_state t
                ({ ctx with total_violations := ctx.total_violations + 1 })
              by_cases hn : ctx.current_state = SimplexState.NORMAL
              · have hss' : (simplexPromote t
                    { ctx with total_violations := ctx.total_violations + 1 }).current_state
                    = SimplexState.DEGRADED := by
                  rw [hss]; simp [hn]
                constructor
                · rw [hih.1, hss']
                  have hpos : (0:Int) < (simplexRunFrom t (i + 1) rest
                      (simplexPromote t
                        { ctx with total_violations := ctx.total_violations + 1 })).1 + 1 := by
                    omega
                  rw [if_neg (by simp : ¬(SimplexState.DEGRADED = SimplexState.NORMAL ∧
                      0 < (simplexRunFrom t (i + 1) rest
                        (simplexPromote t
                          { ctx with total_violations := ctx.total_violations + 1 })).1))]
                  rw [if_pos ⟨hn, hpos⟩]
                · rw [hih.2, hvs]
                  omega
              · have hss' : (simplexPromote t
                    { ctx with total_violations := ctx.total_violations + 1 }).current_state
                    = ctx.current_state := by
                  rw [hss]; simp [hn]
                constructor
                · rw [hih.1, hss']
                  simp [hn]
                · rw [hih.2, hvs]
                  omega
          | some fb =>
            simp only [hfb] at hr ⊢
            by_cases hf : fb t = 0
            · simp only [hf, if_true, if_pos] at hr ⊢
              by_cases hq : (simplexRunFrom t (i + 1) rest
                  (simplexPromote t
                    { ctx with
                        total_violations := ctx.total_violations + 1
                        fallback_activations := ctx.fallback_activations + 1 })).1 < 0
              · rw [if_pos hq] at hr
                omega
              · rw [if_neg hq] at hr ⊢
                have hq' : 0 ≤ (simplexRunFrom t (i + 1) rest
                    (simplexPromote t
                      { ctx with
                          total_violations := ctx.total_violations + 1
                          fallback_activations := ctx.fallback_activations + 1 })).1 := by
                  omega
                have hih := ih (i + 1)
                  (simplexPromote t
                    { ctx with
                        total_violations := ctx.total_violations + 1
                        fallback_activations := ctx.fallback_activations + 1 }) hq'
                have hvs : (simplexPromote t
                    { ctx with
                        total_violations := ctx.total_violations + 1
                        fallback_activations := ctx.fallback_activations + 1 }).total_violations
                    = ctx.total_violations + 1 := simplexPromote_violations t _
                have hss := simplexPromote_state t
                  ({ ctx with
                      total_violations := ctx.total_violations + 1
                      fallback_activations := ctx.fallback_activations + 1 })
                by_cases hn : ctx.current_state = SimplexState.NORMAL
                · have hss' : (simplexPromote t
                      { ctx with
                          total_violations := ctx.total_violations + 1
                          fallback_activations := ctx.fallback_activations + 1 }).current_state
                      = SimplexState.DEGRADED := by
                    rw [hss]; simp [hn]
                  constructor
                  · rw [hih.1, hss']
                    have hpos : (0:Int) < (simplexRunFrom t (i + 1) rest
                        (simplexPromote t
                          { ctx with
                              total_violations := ctx.total_violations + 1
                              fallback_activations := ctx.fallback_activations + 1 })).1 + 1 := by
                      omega
                    rw [if_neg (by simp : ¬(SimplexState.DEGRADED = SimplexState.NORMAL ∧
                        0 < (simplexRunFrom t (i + 1) rest
                          (simplexPromote t
                            { ctx with
                                total_violations := ctx.total_violations + 1
                                fallback_activations := ctx.fallback_activations + 1 })).1))]
                    rw [if_pos ⟨hn, hpos⟩]
                  · rw [hih.2, hvs]
                    omega
                · have hss' : (simplexPromote t
                      { ctx with
                          total_violations := ctx.total_violations + 1
                          fallback_activations := ctx.fallback_activations + 1 }).current_state
                      = ctx.current_state := by
                    rw [hss]; simp [hn]
                  constructor
                  · rw [hih.1, hss']
                    simp [hn]
                  · rw [hih.2, hvs]
                    omega
            · simp only [hf, if_neg, if_false] at hr
              omega


/-- If some slot in the processed suffix is enabled, has a check function,
and that check reports a violation at `t`, then a non-negative loop result is
in fact positive: the violation was counted. -/
theorem simplexRunFrom_violation_pos (t : Nat) :
    ∀ (L : List SimplexMonitor) (k i : Nat) (ctx : SimplexContext)
      (m : SimplexMonitor) (chk : Nat → Int),
      L.get? k = some m → m.enabled = true → m.check_function = some chk →
      chk t ≠ 0 → 0 ≤ (simplexRunFrom t i L ctx).1 →
      0 < (simplexRunFrom t i L ctx).1 := by
  intro L
  induction L with
  | nil =>
    intro k i ctx m chk hget
    simp at hget
  | cons m0 rest ih =>
    intro k i ctx m chk hget hen hchk hviol hr
    cases k with
    | zero =>
      rw [List.get?_cons_zero] at hget
      injection hget with hm
      subst hm
      simp only [simplexRunFrom, hchk, hen] at hr ⊢
      rw [if_neg hviol] at hr ⊢
      cases hfb : m0.fallback_function with
      | none =>
        simp only [hfb] at hr ⊢
        by_cases hq : (simplexRunFrom t (i + 1) rest
            (simplexPromote t { ctx with total_violations := ctx.total_violations + 1 })).1 < 0
        · rw [if_pos hq] at hr ⊢
          omega
        · rw [if_neg hq] at hr ⊢
          omega
      | some fb =>
        simp only [hfb] at hr ⊢
        by_cases hf : fb t = 0
        · rw [if_pos hf] at hr ⊢
          by_cases hq : (simplexRunFrom t (i + 1) rest
              (simplexPromote t
                { ctx with
                    total_violations := ctx.total_violations + 1
                    fallback_activations := ctx.fallback_activations + 1 })).1 < 0
          · rw [if_pos hq] at hr ⊢
            omega
          · rw [if_neg hq] at hr ⊢
            omega
        · rw [if_neg hf] at hr
          simp at hr
    | succ k =>
      rw [List.get?_cons_succ] at hget
      cases hcf0 : m0.check_function with
      | none =>
        simp only [simplexRunFrom, hcf0] at hr ⊢
        exact ih k (i + 1) ctx m chk hget hen hchk hviol hr
      | some chk0 =>
        cases hen0 : m0.enabled with
        | false =>
          simp only [simplexRunFrom, hcf0, hen0] at hr ⊢
          exact ih k (i + 1) ctx m chk hget hen hchk hviol hr
        | true =>
          simp only [simplexRunFrom, hcf0, hen0] at hr ⊢
          by_cases hv0 : chk0 t = 0
          · rw [if_pos hv0] at hr ⊢
            exact ih k (i + 1) ctx m chk hget hen hchk hviol hr
          · rw [if_neg hv0] at hr ⊢
            cases hfb0 : m0.fallback_function with
            | none =>
              simp only [hfb0] at hr ⊢
              by_cases hq : (simplexRunFrom t (i + 1) rest
                  (simplexPromote t { ctx with total_violations := ctx.total_violations + 1 })).1 < 0
              · rw [if_pos hq] at hr ⊢
                omega
              · rw [if_neg hq] at hr ⊢
                omega
            | some fb0 =>
              simp only [hfb0] at hr ⊢
              by_cases hf0 : fb0 t = 0
              · rw [if_pos hf0] at hr ⊢
                by_cases hq : (simplexRunFrom t (i + 1) rest
                    (simplexPromote t
                      { ctx with
                          total_violations := ctx.total_violations + 1
                          fallback_activations := ctx.fallback_activations + 1 })).1 < 0
                · rw [if_pos hq] at hr ⊢
                  omega
                · rw [if_neg hq] at hr ⊢
                  omega
              · rw [if_neg hf0] at hr
                simp at hr

/-- If some slot in the processed suffix is enabled, violating, and has a
fallback that fails at `t`, the loop returns `-1`, forces `FAILED`, and
invokes no check beyond that slot: every invoked index is at most `i + k`. -/
theorem simplexRunFrom_abort (t : Nat) :
    ∀ (L : List SimplexMonitor) (k i : Nat) (ctx : SimplexContext)
      (m : SimplexMonitor) (chk fb : Nat → Int),
      L.get? k = some m → m.enabled = true → m.check_function = some chk →
      chk t ≠ 0 → m.fallback_function = some fb → fb t ≠ 0 →
      (simplexRunFrom t i L ctx).1 = -1 ∧
      (simplexRunFrom t i L ctx).2.2.1.current_state = SimplexState.FAILED ∧
      ∀ j ∈ (simplexRunFrom t i L ctx).2.2.2, j ≤ i + k := by
  intro L
  induction L with
  | nil =>
    intro k i ctx m chk fb hget
    simp at hget
  | cons m0 rest ih =>
    intro k i ctx m chk fb hget hen hchk hviol hfb hfail
    cases k with
    | zero =>
      rw [List.get?_cons_zero] at hget
      injection hget with hm
      subst hm
      simp only [simplexRunFrom, hchk, hen, hfb]
      rw [if_neg hviol, if_neg hfail]
      refine ⟨rfl, rfl, ?_⟩
      intro j hj
      simp at hj
      omega
    | succ k =>
      rw [List.get?_cons_succ] at hget
      cases hcf0 : m0.check_function with
      | none =>
        simp only [simplexRunFrom, hcf0]
        have hih := ih k (i + 1) ctx m chk fb hget hen hchk hviol hfb hfail
        refine ⟨hih.1, hih.2.1, ?_⟩
        intro j hj
        have := hih.2.2 j hj
        omega
      | some chk0 =>
        cases hen0 : m0.enabled with
        | false =>
          simp only [simplexRunFrom, hcf0, hen0]
          have hih := ih k (i + 1) ctx m chk fb hget hen hchk hviol hfb hfail
          refine ⟨hih.1, hih.2.1, ?_⟩
          intro j hj
          have := hih.2.2 j hj
          omega
        | true =>
          simp only [simplexRunFrom, hcf0, hen0]
          by_cases hv0 : chk0 t = 0
          · rw [if_pos hv0]
            have hih := ih k (i + 1) ctx m chk fb hget hen hchk hviol hfb hfail
            refine ⟨hih.1, hih.2.1, ?_⟩
            intro j hj
            simp at hj
            rcases hj with hj | hj
            · omega
            · have := hih.2.2 j hj
              omega
          · rw [if_neg hv0]
            cases hfb0 : m0.fallback_function with
            | none =>
              have hih := ih k (i + 1)
                (simplexPromote t { ctx with total_violations := ctx.total_violations + 1 })
                m chk fb hget hen hchk hviol hfb hfail
              rw [hih.1]
              refine ⟨by norm_num, hih.2.1, ?_⟩
              intro j hj
              simp at hj
              rcases hj with hj | hj
              · omega
              · have := hih.2.2 j hj
                omega
            | some fb0 =>
              by_cases hf0 : fb0 t = 0
              · simp only [hf0, if_true, if_pos]
                have hih := ih k (i + 1)
                  (simplexPromote t
                    { ctx with
                        total_violations := ctx.total_violations + 1
                        fallback_activations := ctx.fallback_activations + 1 })
                  m chk fb hget hen hchk hviol hfb hfail
                rw [hih.1]
                refine ⟨by norm_num, hih.2.1, ?_⟩
                intro j hj
                simp at hj
                rcases hj with hj | hj
                · omega
                · have := hih.2.2 j hj
                  omega
              · simp only [hf0, if_neg, if_false]
                refine ⟨trivial, trivial, ?_⟩
                intro j hj
                simp at hj
                omega

/-- If some slot in the processed suffix is enabled and its check violates at
`t`, and the loop completes without a fallback failure, that slot in the
returned table is exactly the violation update `simplexViolMon t m`:
`last_check_us` stamped and its own `violation_count` incremented by one. -/
theorem simplexRunFrom_viol_slot (t : Nat) :
    ∀ (L : List SimplexMonitor) (k i : Nat) (ctx : SimplexContext)
      (m : SimplexMonitor) (chk : Nat → Int),
      L.get? k = some m → m.enabled = true → m.check_function = some chk →
      chk t ≠ 0 → 0 ≤ (simplexRunFrom t i L ctx).1 →
      (simplexRunFrom t i L ctx).2.1.get? k = some (simplexViolMon t m) := by
  intro L
  induction L with
  | nil =>
    intro k i ctx m chk hget
    simp at hget
  | cons m0 rest ih =>
    intro k i ctx m chk hget hen hchk hviol hr
    cases k with
    | zero =>
      rw [List.get?_cons_zero] at hget
      injection hget with hm
      subst hm
      simp only [simplexRunFrom, hchk, hen] at hr ⊢
      rw [if_neg hviol] at hr ⊢
      cases hfb : m0.fallback_function with
      | none =>
        simp only [hfb] at hr ⊢
        rw [List.get?_cons_zero]
      | some fb =>
        simp only [hfb] at hr ⊢
        by_cases hf : fb t = 0
        · rw [if_pos hf] at hr ⊢
          rw [List.get?_cons_zero]
        · rw [if_neg hf] at hr
          simp at hr
    | succ k =>
      rw [List.get?_cons_succ] at hget
      cases hcf0 : m0.check_function with
      | none =>
        simp only [simplexRunFrom, hcf0] at hr ⊢
        rw [List.get?_cons_succ]
        exact ih k (i + 1) ctx m chk hget hen hchk hviol hr
      | some chk0 =>
        cases hen0 : m0.enabled with
        | false =>
          simp only [simplexRunFrom, hcf0, hen0] at hr ⊢
          rw [List.get?_cons_succ]
          exact ih k (i + 1) ctx m chk hget hen hchk hviol hr
        | true =>
          simp only [simplexRunFrom, hcf0, hen0] at hr ⊢
          by_cases hv0 : chk0 t = 0
          · rw [if_pos hv0] at hr ⊢
            rw [List.get?_cons_succ]
            exact ih k (i + 1) ctx m chk hget hen hchk hviol hr
          · rw [if_neg hv0] at hr ⊢
            cases hfb0 : m0.fallback_function with
            | none =>
              simp only [hfb0] at hr ⊢
              by_cases hq : (simplexRunFrom t (i + 1) rest
                  (simplexPromote t { ctx with total_violations := ctx.total_violations + 1 })).1 < 0
              · rw [if_pos hq] at hr
                omega
              · rw [if_neg hq] at hr
                rw [List.get?_cons_succ]
                exact ih k (i + 1)
                  (simplexPromote t { ctx with total_violations := ctx.total_violations + 1 })
                  m chk hget hen hchk hviol (by omega)
            | some fb0 =>
              simp only [hfb0] at hr ⊢
              by_cases hf0 : fb0 t = 0
              · rw [if_pos hf0] at hr ⊢
                by_cases hq : (simplexRunFrom t (i + 1) rest
                    (simplexPromote t
                      { ctx with
                          total_violations := ctx.total_violations + 1
                          fallback_activations := ctx.fallback_activations + 1 })).1 < 0
                · rw [if_pos hq] at hr
                  omega
                · rw [if_neg hq] at hr
                  rw [List.get?_cons_succ]
                  exact ih k (i + 1)
                    (simplexPromote t
                      { ctx with
                          total_violations := ctx.total_violations + 1
                          fallback_activations := ctx.fallback_activations + 1 })
                    m chk hget hen hchk hviol (by omega)
              · rw [if_neg hf0] at hr
                simp at hr

/-! ### Bridge lemmas about the monitor operations -/

theorem simplex_register_monitor_state (monitor_id : Nat) (name : String)
    (check_fn fallback_fn : Option (Nat → Int)) (ctx : SimplexContext) :
    (simplex_register_monitor monitor_id name check_fn fallback_fn ctx).2.current_state
      = ctx.current_state := by
  simp only [simplex_register_monitor]
  split <;> rfl

theorem simplex_enable_monitor_state (monitor_id : Nat) (ctx : SimplexContext) :
    (simplex_enable_monitor monitor_id ctx).2.current_state = ctx.current_state := by
  simp only [simplex_enable_monitor]
  split <;> rfl

theorem simplex_disable_monitor_state (monitor_id : Nat) (ctx : SimplexContext) :
    (simplex_disable_monitor monitor_id ctx).2.current_state = ctx.current_state := by
  simp only [simplex_disable_monitor]
  split <;> rfl

theorem simplex_run_monitors_state_stable (t : Nat) (ctx : SimplexContext)
    (h : ctx.current_state ≠ SimplexState.NORMAL) :
    (simplex_run_monitors t ctx).2.1.current_state = ctx.current_state ∨
    (simplex_run_monitors t ctx).2.1.current_state = SimplexState.FAILED := by
  simpa [simplex_run_monitors] using
    simplexRunFrom_state_stable t ctx.monitors 0 ctx h

theorem simplex_is_safe_state_false_iff (ctx : SimplexContext) :
    simplex_is_safe_state ctx = false ↔
      (ctx.current_state = SimplexState.FALLBACK ∨
       ctx.current_state = SimplexState.FAILED) := by
  cases h : ctx.current_state <;> simp [simplex_is_safe_state, h]

theorem simplexApply_failed_stable (ctx : SimplexContext) (op : SimplexOp)
    (hst : ctx.current_state = SimplexState.FAILED)
    (hop : op.isForce = false) :
    (simplexApply ctx op).current_state = SimplexState.FAILED := by
  cases op with
  | reg id name chk fb =>
    simp only [simplexApply, simplex_register_monitor_state]
    exact hst
  | enable id =>
    simp only [simplexApply, simplex_enable_monitor_state]
    exact hst
  | disable id =>
    simp only [simplexApply, simplex_disable_monitor_state]
    exact hst
  | run t =>
    have := simplex_run_monitors_state_stable t ctx (by rw [hst]; simp)
    simp only [simplexApply]
    rcases this with h | h
    · rw [h, hst]
    · rw [h]
  | forceFallback v =>
    simp [SimplexOp.isForce] at hop
  | emergencyShutdown =>
    rfl

theorem simplexApply_unsafe_stable (ctx : SimplexContext) (op : SimplexOp)
    (h : simplex_is_safe_state ctx = false) :
    simplex_is_safe_state (simplexApply ctx op) = false := by
  rw [simplex_is_safe_state_false_iff] at h ⊢
  have hne : ctx.current_state ≠ SimplexState.NORMAL := by
    rcases h with h | h <;> rw [h] <;> simp
  cases op with
  | reg id name chk fb =>
    simp only [simplexApply, simplex_register_monitor_state]
    exact h
  | enable id =>
    simp only [simplexApply, simplex_enable_monitor_state]
    exact h
  | disable id =>
    simp only [simplexApply, simplex_disable_monitor_state]
    exact h
  | run t =>
    have := simplex_run_monitors_state_stable t ctx hne
    simp only [simplexApply]
    rcases this with hs | hs
    · rw [hs]; exact h
    · rw [hs]; exact Or.inr rfl
  | forceFallback v =>
    exact Or.inl rfl
  | emergencyShutdown =>
    exact Or.inr rfl

/-! ### Claim theorems -/

/-- C1 (counterexample): in the literal scenario
`vote({1,1}, {1.0002,0.9999}, {5,5}, eps=1e-3)` channels a and b agree — so
at least two of the three outputs are pairwise within epsilon — yet
`voter_compare` returns `VOTE_MISMATCH` and leaves the retained value
unchanged, because the code demands two of the three pairwise agreements. -/
theorem voter_single_pair_mismatch :
    eq_out ⟨1, 1⟩ ⟨10002/10000, 9999/10000⟩ (1/1000) = true ∧
    voter_compare ⟨1, 1⟩ ⟨10002/10000, 9999/10000⟩ ⟨5, 5⟩ (1/1000) ⟨0, 0⟩
      = (VOTE_MISMATCH, ⟨0, 0⟩) := by
  constructor
  · norm_num [eq_out, abs_le]
  · norm_num [voter_compare, eq_out, VOTE_MISMATCH, abs_le]

/-- C1 (amended): whenever at least two of the three pairwise agreements
(a-b, a-c, b-c) hold, `voter_compare` returns `VOTE_EQUAL` and the selected
consensus is bitwise equal to channel a, which agrees with at least one other
channel — never a blend. -/
theorem voter_two_pairwise_consensus (c f d : CtrlOut) (eps : ℚ) (last : CtrlOut)
    (h : ((eq_out c f eps && eq_out c d eps) || (eq_out c f eps && eq_out f d eps) ||
          (eq_out c d eps && eq_out f d eps)) = true) :
    voter_compare c f d eps last = (VOTE_EQUAL, c) ∧
    (eq_out c f eps = true ∨ eq_out c d eps = true) := by
  by_cases hcf : eq_out c f eps = true
  · refine ⟨?_, Or.inl hcf⟩
    simp only [voter_compare]
    rw [if_pos h, if_pos hcf]
  · by_cases hcd : eq_out c d eps = true
    · refine ⟨?_, Or.inr hcd⟩
      simp only [voter_compare]
      rw [if_pos h, if_neg hcf, if_pos hcd]
    · exfalso
      simp only [Bool.not_eq_true] at hcf hcd
      simp [hcf, hcd] at h

/-- C1 (witness): three identical outputs satisfy all three pairwise
agreements and the vote selects channel a. -/
theorem voter_two_pairwise_consensus_witness :
    voter_compare ⟨1, 1⟩ ⟨1, 1⟩ ⟨1, 1⟩ (1/1000) ⟨0, 0⟩ = (VOTE_EQUAL, ⟨1, 1⟩) ∧
    (eq_out ⟨1, 1⟩ ⟨1, 1⟩ (1/1000) = true ∨ eq_out ⟨1, 1⟩ ⟨1, 1⟩ (1/1000) = true) :=
  voter_two_pairwise_consensus ⟨1, 1⟩ ⟨1, 1⟩ ⟨1, 1⟩ (1/1000) ⟨0, 0⟩
    (by norm_num [eq_out, abs_le])

/-- C2 (code-bug evaluation): with a perceive phase that returns the error
code -1, `poae_run_cycle` nevertheless invokes observe, actuate and evolve
(trace `[0, 1, 2, 3]`) and returns 0 — phase errors are discarded, later
phases are not skipped, and the cycle result does not reflect the error. -/
theorem poae_phase_error_not_propagated :
    ((poaeTrace 0 (-1)) 0 ([] : List Nat)).1 = -1 ∧
    poae_run_cycle 0 (some (poaeTrace 0 (-1))) (some (poaeTrace 1 0))
        (some (poaeTrace 2 0)) (some (poaeTrace 3 0)) ([] : List Nat)
      = (0, [0, 1, 2, 3]) :=
  ⟨rfl, rfl⟩

/-- C3 (code-bug evaluation): at `t = 260000` the offset from the active
slot's expected start is 10000 µs, far above the 50 µs bound, yet
`arinc653_schedule` returns 0 (not `-2`/JitterExceeded), invokes partition
1's entry point, and records `last_exec_us = 260000` — because the code
compares `offset % 50` (always ≤ 49) against 50. -/
theorem arinc653_executes_despite_excess_offset :
    50 < 260000 % MAJOR_FRAME_US
        - (260000 % MAJOR_FRAME_US / PARTITION_DURATION_US) * PARTITION_DURATION_US ∧
    (arinc653_schedule 260000 arinc653_init).1 = 0 ∧
    (arinc653_schedule 260000 arinc653_init).2.2 = some 1 ∧
    ((arinc653_schedule 260000 arinc653_init).2.1.partitions.get? 1).map
        (fun p => p.last_exec_us) = some 260000 := by
  refine ⟨by norm_num [MAJOR_FRAME_US, PARTITION_DURATION_US], ?_, ?_, ?_⟩ <;> rfl

/-- C4 (counterexample): `FAILED` is not terminal — from a `FAILED` context,
`simplex_force_fallback` unconditionally moves the state to `FALLBACK`. -/
theorem simplex_failed_exits_via_force_fallback :
    ctxFailedEx.current_state = SimplexState.FAILED ∧
    (simplex_force_fallback SimplexViolation.TIMING ctxFailedEx).2.current_state
      = SimplexState.FALLBACK :=
  ⟨rfl, rfl⟩

/-- C4 (amended): once the state is `FAILED`, any sequence of monitor
operations that does not include `simplex_force_fallback` (run_monitors,
register, enable, disable, emergency_shutdown) leaves the state `FAILED`. -/
theorem simplex_failed_terminal_without_force (ops : List SimplexOp) :
    ∀ ctx : SimplexContext, ctx.current_state = SimplexState.FAILED →
      (∀ op ∈ ops, op.isForce = false) →
      (ops.foldl simplexApply ctx).current_state = SimplexState.FAILED := by
  induction ops with
  | nil =>
    intro ctx h _
    exact h
  | cons op rest ih =>
    intro ctx h hops
    rw [List.foldl_cons]
    exact ih (simplexApply ctx op)
      (simplexApply_failed_stable ctx op h (hops op (List.mem_cons_self op rest)))
      (fun o ho => hops o (List.mem_cons_of_mem op ho))

/-- C4 (witness): a sample force-free sequence applied to a `FAILED` context
leaves the state `FAILED`. -/
theorem simplex_failed_terminal_without_force_witness :
    (opsNoForceEx.foldl simplexApply ctxFailedEx).current_state
      = SimplexState.FAILED :=
  simplex_failed_terminal_without_force opsNoForceEx ctxFailedEx rfl (by decide)

/-- C5: if some enabled monitor's check reports a violation at `t` and its
registered fallback fails, `simplex_run_monitors` returns -1, the state after
the run is `FAILED`, and no check of a later-registered monitor is invoked
(every invoked index is at most `i`). -/
theorem simplex_fallback_failure_aborts_run (t : Nat) (ctx : SimplexContext)
    (i : Nat) (m : SimplexMonitor) (chk fb : Nat → Int)
    (hget : ctx.monitors.get? i = some m) (hen : m.enabled = true)
    (hchk : m.check_function = some chk) (hviol : chk t ≠ 0)
    (hfb : m.fallback_function = some fb) (hfail : fb t ≠ 0) :
    (simplex_run_monitors t ctx).1 = -1 ∧
    (simplex_run_monitors t ctx).2.1.current_state = SimplexState.FAILED ∧
    ∀ j ∈ (simplex_run_monitors t ctx).2.2, j ≤ i := by
  have h := simplexRunFrom_abort t ctx.monitors i 0 ctx m chk fb hget hen hchk hviol hfb hfail
  refine ⟨h.1, h.2.1, ?_⟩
  intro j hj
  have := h.2.2 j hj
  omega

/-- C5 (witness): in a table `[healthy, failing-fallback, healthy]` run at
`t = 5`, the run returns -1, the state is `FAILED`, and only checks 0 and 1
were invoked — monitor 2's check never ran. -/
theorem simplex_fallback_failure_aborts_run_witness :
    (simplex_run_monitors 5 ctxAbortEx).1 = -1 ∧
    (simplex_run_monitors 5 ctxAbortEx).2.1.current_state = SimplexState.FAILED ∧
    (simplex_run_monitors 5 ctxAbortEx).2.2 = [0, 1] := by
  have h := simplex_fallback_failure_aborts_run 5 ctxAbortEx 1 monBad hookBad hookBad
    rfl rfl rfl (by decide) rfl (by decide)
  exact ⟨h.1, h.2.1, by decide⟩

/-- C6 (counterexample): a violation by an enabled monitor with no fallback
does change the state by itself — from `NORMAL` the run ends `DEGRADED`. -/
theorem simplex_violation_no_fallback_degrades :
    ctxViolEx.current_state = SimplexState.NORMAL ∧
    (simplex_run_monitors 5 ctxViolEx).2.1.current_state = SimplexState.DEGRADED :=
  ⟨rfl, by decide⟩

/-- C6 (amended): when an enabled monitor with no registered fallback reports
a violation and the run completes without a fallback failure, the monitor's
own `violation_count` is incremented by one, the global
`total_violations` counter grows, and the state is promoted from `NORMAL` to
`DEGRADED` (from any other state it is unchanged). -/
theorem simplex_violation_no_fallback_spec (t : Nat) (ctx : SimplexContext)
    (i : Nat) (m : SimplexMonitor) (chk : Nat → Int)
    (hget : ctx.monitors.get? i = some m) (hen : m.enabled = true)
    (hchk : m.check_function = some chk) (hviol : chk t ≠ 0)
    (hnofb : m.fallback_function = none)
    (hr : 0 ≤ (simplex_run_monitors t ctx).1) :
    (simplex_run_monitors t ctx).2.1.current_state =
      (if ctx.current_state = SimplexState.NORMAL then SimplexState.DEGRADED
       else ctx.current_state) ∧
    ctx.total_violations < (simplex_run_monitors t ctx).2.1.total_violations ∧
    ((simplex_run_monitors t ctx).2.1.monitors.get? i).map
        (fun mm => mm.violation_count) = some (m.violation_count + 1) := by
  have hr' : 0 ≤ (simplexRunFrom t 0 ctx.monitors ctx).1 := hr
  have hpos := simplexRunFrom_violation_pos t ctx.monitors i 0 ctx m chk
    hget hen hchk hviol hr'
  have hspec := simplexRunFrom_nonneg_spec t ctx.monitors 0 ctx hr'
  have hslot := simplexRunFrom_viol_slot t ctx.monitors i 0 ctx m chk
    hget hen hchk hviol hr'
  have hcast : (simplex_run_monitors t ctx).2.1.current_state
      = (simplexRunFrom t 0 ctx.monitors ctx).2.2.1.current_state := rfl
  have hcast2 : (simplex_run_monitors t ctx).2.1.total_violations
      = (simplexRunFrom t 0 ctx.monitors ctx).2.2.1.total_violations := rfl
  have hcast3 : (simplex_run_monitors t ctx).2.1.monitors
      = (simplexRunFrom t 0 ctx.monitors ctx).2.1 := rfl
  refine ⟨?_, ?_, ?_⟩
  · by_cases hn : ctx.current_state = SimplexState.NORMAL
    · rw [hcast, hspec.1, if_pos ⟨hn, hpos⟩, if_pos hn]
    · rw [hcast, hspec.1, if_neg (fun hc => hn hc.1), if_neg hn]
  · rw [hcast2, hspec.2]
    omega
  · rw [hcast3, hslot]
    rfl

/-- C6 (witness): the single-monitor context in `NORMAL` with a violating,
fallback-free monitor: the run promotes the state to `DEGRADED`, the global
violation counter grows, and the monitor's own `violation_count` becomes 1. -/
theorem simplex_violation_no_fallback_spec_witness :
    (simplex_run_monitors 5 ctxViolEx).2.1.current_state =
      (if ctxViolEx.current_state = SimplexState.NORMAL then SimplexState.DEGRADED
       else ctxViolEx.current_state) ∧
    ctxViolEx.total_violations < (simplex_run_monitors 5 ctxViolEx).2.1.total_violations ∧
    ((simplex_run_monitors 5 ctxViolEx).2.1.monitors.get? 0).map
        (fun mm => mm.violation_count) = some (monViolNoFb.violation_count + 1) :=
  simplex_violation_no_fallback_spec 5 ctxViolEx 0 monViolNoFb hookBad
    rfl rfl rfl (by decide) rfl (by decide)

/-- C7: a `VOTE_MISMATCH` outcome leaves the retained consensus unchanged —
`voter_get_consensed_result` returns the same value after the mismatching
vote as before it. -/
theorem voter_mismatch_retains_consensus (c f d : CtrlOut) (eps : ℚ)
    (last : CtrlOut) (ata_code : Nat)
    (h : (voter_compare c f d eps last).1 = VOTE_MISMATCH) :
    voter_get_consensed_result ata_code (voter_compare c f d eps last).2
      = voter_get_consensed_result ata_code last := by
  by_cases hc : ((eq_out c f eps && eq_out c d eps) ||
      (eq_out c f eps && eq_out f d eps) ||
      (eq_out c d eps && eq_out f d eps)) = true
  · exfalso
    have h1 : (voter_compare c f d eps last).1 = VOTE_EQUAL := by
      simp only [voter_compare]
      rw [if_pos hc]
    rw [h1] at h
    norm_num [VOTE_EQUAL, VOTE_MISMATCH] at h
  · have h2 : (voter_compare c f d eps last).2 = last := by
      simp only [voter_compare]
      rw [if_neg hc]
    rw [h2]

/-- C7 (witness): three mutually disagreeing outputs produce `VOTE_MISMATCH`
and the retained value `{7,7}` is returned unchanged for ATA code 0x27. -/
theorem voter_mismatch_retains_consensus_witness :
    voter_get_consensed_result 39
        (voter_compare ⟨0, 0⟩ ⟨1, 0⟩ ⟨2, 0⟩ (1/10) ⟨7, 7⟩).2
      = voter_get_consensed_result 39 ⟨7, 7⟩ :=
  voter_mismatch_retains_consensus ⟨0, 0⟩ ⟨1, 0⟩ ⟨2, 0⟩ (1/10) ⟨7, 7⟩ 39
    (by norm_num [voter_compare, eq_out, VOTE_MISMATCH, abs_le])

/-- C8 (counterexample): registering id 0 twice: the second registration is
accepted (returns 0, not a DuplicateId error), overwrites the slot (the name
becomes "B"), and increments `active_monitors` to 2. -/
theorem simplex_register_duplicate_succeeds :
    (simplex_register_monitor 0 "A" none none simplex_init).1 = 0 ∧
    (simplex_register_monitor 0 "B" none none
        (simplex_register_monitor 0 "A" none none simplex_init).2).1 = 0 ∧
    (simplex_register_monitor 0 "B" none none
        (simplex_register_monitor 0 "A" none none simplex_init).2).2.active_monitors = 2 ∧
    ((simplex_register_monitor 0 "B" none none
        (simplex_register_monitor 0 "A" none none simplex_init).2).2.monitors.get? 0).map
      (fun m => m.name) = some "B" :=
  ⟨rfl, rfl, rfl, by decide⟩

/-- C8 (amended): `simplex_register_monitor` errors exactly on an
out-of-capacity id (≥ 8), leaving the context unchanged; any in-capacity id —
used or not — succeeds, overwrites the slot with the new registration, and
increments the active-monitor count (there is no DuplicateId check). -/
theorem simplex_register_monitor_spec (ctx : SimplexContext) (monitor_id : Nat)
    (name : String) (check_fn fallback_fn : Option (Nat → Int)) :
    (SIMPLEX_MAX_MONITORS ≤ monitor_id →
      simplex_register_monitor monitor_id name check_fn fallback_fn ctx = (-1, ctx)) ∧
    (monitor_id < SIMPLEX_MAX_MONITORS →
      (simplex_register_monitor monitor_id name check_fn fallback_fn ctx).1 = 0 ∧
      (simplex_register_monitor monitor_id name check_fn fallback_fn ctx).2.active_monitors
        = ctx.active_monitors + 1 ∧
      (simplex_register_monitor monitor_id name check_fn fallback_fn ctx).2.monitors
        = updateAt monitor_id (simplexRegUpdate monitor_id name check_fn fallback_fn)
            ctx.monitors) := by
  constructor
  · intro h
    simp [simplex_register_monitor, h]
  · intro h
    simp [simplex_register_monitor, Nat.not_le.mpr h]

/-- C8 (witness): id 8 is rejected with the context unchanged; id 0 on a
fresh context succeeds, bumps the count, and writes the slot. -/
theorem simplex_register_monitor_spec_witness :
    simplex_register_monitor 8 "Z" none none simplex_init = (-1, simplex_init) ∧
    ((simplex_register_monitor 0 "A" none none simplex_init).1 = 0 ∧
     (simplex_register_monitor 0 "A" none none simplex_init).2.active_monitors
       = simplex_init.active_monitors + 1 ∧
     (simplex_register_monitor 0 "A" none none simplex_init).2.monitors
       = updateAt 0 (simplexRegUpdate 0 "A" none none) simplex_init.monitors) :=
  ⟨(simplex_register_monitor_spec simplex_init 8 "Z" none none).1 (by decide),
   (simplex_register_monitor_spec simplex_init 0 "A" none none).2 (by decide)⟩

/-- C9: once `simplex_is_safe_state` is false (state `FALLBACK` or `FAILED`),
no sequence of register/enable/disable/run/force_fallback/emergency_shutdown
operations makes it true again; only `simplex_init` yields a safe state. -/
theorem simplex_unsafe_state_latch (ops : List SimplexOp) :
    ∀ ctx : SimplexContext, simplex_is_safe_state ctx = false →
      simplex_is_safe_state (ops.foldl simplexApply ctx) = false ∧
      simplex_is_safe_state simplex_init = true := by
  induction ops with
  | nil =>
    intro ctx h
    exact ⟨h, rfl⟩
  | cons op rest ih =>
    intro ctx h
    rw [List.foldl_cons]
    exact ⟨(ih (simplexApply ctx op) (simplexApply_unsafe_stable ctx op h)).1, rfl⟩

/-- C9 (witness): a sequence exercising every operation, applied to a
`FALLBACK` context, never restores a safe state. -/
theorem simplex_unsafe_state_latch_witness :
    simplex_is_safe_state (opsAllEx.foldl simplexApply ctxUnsafeEx) = false ∧
    simplex_is_safe_state simplex_init = true :=
  simplex_unsafe_state_latch opsAllEx ctxUnsafeEx rfl

/-- C10: `simplex_timing_monitor` called with timestamp 0 takes the
first-call branch, returns ok, and stores 0 as `last_check` — so the next
call, at any timestamp, is again treated as a first call and returns ok. -/
theorem simplex_timing_monitor_zero_start (t : Nat) :
    simplex_timing_monitor 0 0 = (0, 0) ∧
    (simplex_timing_monitor t ((simplex_timing_monitor 0 0).2)).1 = 0 :=
  ⟨rfl, rfl⟩
